import Mathlib

/-!
# Moonstream database server settings

A shallow embedding of `db/server/configs/settings.go`, the Go package `settings`.
The package consists of four package-level variables and their initialisers:

* `MOONSTREAM_DB_MAX_IDLE_CONNS int = 30`
* `MOONSTREAM_DB_CONN_MAX_LIFETIME = 30 * time.Minute`
* `MOONSTREAM_DB_URI = os.Getenv("MOONSTREAM_DB_URI")`
* `MOONSTREAM_CORS_ALLOWED_ORIGINS = os.Getenv("MOONSTREAM_CORS_ALLOWED_ORIGINS")`

Package initialisation is modelled as a run of four steps over a process state
made of the process environment and the four variables, in declaration order
(the initialisers do not depend on each other, so Go runs them in that order).
A Go string is a byte sequence; the package never inspects the bytes of a value
(it only stores what the lookup returns), so values are modelled by `String`.
-/

namespace Moonstream

/-! ## The process environment -/

/-- Process environment: the list of name and value bindings handed to the
process. When a name occurs more than once the first binding is the one in
force, as in the Go runtime, which indexes the first mention of a key. -/
structure Env where
  vars : List (String × String)
  deriving DecidableEq, Repr

/-- Binding of a name in the environment: `some v` when the variable is set to
`v` (possibly the empty string), `none` when it is unset. -/
def Env.lookup (e : Env) (key : String) : Option String :=
  e.vars.lookup key

/-- Modelled from the spec: the standard-library lookup `syscall.Getenv` behind
`os.Getenv`, which is not part of the repository source. It returns the value
of the variable and whether it was found; an empty key is never found. -/
def syscall_Getenv (e : Env) (key : String) : String × Bool :=
  if key.length = 0 then ("", false)
  else
    match e.lookup key with
    | some v => (v, true)
    | none => ("", false)

/-- Modelled from the spec: the standard-library function `os.Getenv`, which is
not part of the repository source. It retrieves the value of the variable named
by the key and drops the found flag, so an absent variable reads as the empty
string. It is a read: the environment is an argument and is not returned. -/
def os_Getenv (e : Env) (key : String) : String :=
  (syscall_Getenv e key).1

/-! ## Durations -/

/-- Go `time.Duration`: a count of nanoseconds held in a signed 64-bit integer. -/
abbrev Duration := Int

/-- Least value of a signed 64-bit integer, `-2^63`. -/
def minInt64 : Int := -9223372036854775808

/-- Greatest value of a signed 64-bit integer, `2^63 - 1`. -/
def maxInt64 : Int := 9223372036854775807

/-- Reduction of a mathematical integer to the signed 64-bit range (two-complement
wrap-around): `(x + 2^63) mod 2^64 - 2^63`. -/
def wrapInt64 (x : Int) : Int :=
  (x + 9223372036854775808) % 18446744073709551616 - 9223372036854775808

/-- Product of two durations as a 64-bit machine operation. -/
def Duration.mul (a b : Duration) : Duration := wrapInt64 (a * b)

/-- Modelled from the spec: the standard-library constant `time.Nanosecond`,
not part of the repository source; the unit of `Duration`. -/
def time_Nanosecond : Duration := 1

/-- Modelled from the spec: the standard-library constant `time.Microsecond`,
declared as `1000 * Nanosecond`. -/
def time_Microsecond : Duration := Duration.mul 1000 time_Nanosecond

/-- Modelled from the spec: the standard-library constant `time.Millisecond`,
declared as `1000 * Microsecond`. -/
def time_Millisecond : Duration := Duration.mul 1000 time_Microsecond

/-- Modelled from the spec: the standard-library constant `time.Second`,
declared as `1000 * Millisecond`. -/
def time_Second : Duration := Duration.mul 1000 time_Millisecond

/-- Modelled from the spec: the standard-library constant `time.Minute`,
declared as `60 * Second`; the spec speaks of a lifetime of 30 minutes. -/
def time_Minute : Duration := Duration.mul 60 time_Second

/-! ## The package variables and their initialisation -/

/-- Package-level variables of package `settings`, under their source names. -/
structure Settings where
  MOONSTREAM_DB_MAX_IDLE_CONNS : Int
  MOONSTREAM_DB_CONN_MAX_LIFETIME : Duration
  MOONSTREAM_DB_URI : String
  MOONSTREAM_CORS_ALLOWED_ORIGINS : String
  deriving DecidableEq, Repr

/-- Zero values the variables hold before their initialisers run. -/
def Settings.zero : Settings :=
  { MOONSTREAM_DB_MAX_IDLE_CONNS := 0
    MOONSTREAM_DB_CONN_MAX_LIFETIME := 0
    MOONSTREAM_DB_URI := ""
    MOONSTREAM_CORS_ALLOWED_ORIGINS := "" }

/-- State of the process as far as the package is concerned: the process
environment and the package variables. -/
structure Process where
  env : Env
  settings : Settings
  deriving DecidableEq, Repr

/-- State at process start, before package initialisation. -/
def Process.start (e : Env) : Process :=
  { env := e, settings := Settings.zero }

/-- Initialiser `var MOONSTREAM_DB_MAX_IDLE_CONNS int = 30`. -/
def init_MOONSTREAM_DB_MAX_IDLE_CONNS (p : Process) : Process :=
  { p with settings := { p.settings with MOONSTREAM_DB_MAX_IDLE_CONNS := 30 } }

/-- Initialiser `var MOONSTREAM_DB_CONN_MAX_LIFETIME = 30 * time.Minute`. -/
def init_MOONSTREAM_DB_CONN_MAX_LIFETIME (p : Process) : Process :=
  { p with settings :=
      { p.settings with MOONSTREAM_DB_CONN_MAX_LIFETIME := Duration.mul 30 time_Minute } }

/-- Initialiser `var MOONSTREAM_DB_URI = os.Getenv("MOONSTREAM_DB_URI")`. -/
def init_MOONSTREAM_DB_URI (p : Process) : Process :=
  { p with settings :=
      { p.settings with MOONSTREAM_DB_URI := os_Getenv p.env "MOONSTREAM_DB_URI" } }

/-- Initialiser
`var MOONSTREAM_CORS_ALLOWED_ORIGINS = os.Getenv("MOONSTREAM_CORS_ALLOWED_ORIGINS")`. -/
def init_MOONSTREAM_CORS_ALLOWED_ORIGINS (p : Process) : Process :=
  { p with settings :=
      { p.settings with
        MOONSTREAM_CORS_ALLOWED_ORIGINS := os_Getenv p.env "MOONSTREAM_CORS_ALLOWED_ORIGINS" } }

/-- Initialisers of the package in the order Go runs them (declaration order). -/
def initialisers : List (Process → Process) :=
  [ init_MOONSTREAM_DB_MAX_IDLE_CONNS,
    init_MOONSTREAM_DB_CONN_MAX_LIFETIME,
    init_MOONSTREAM_DB_URI,
    init_MOONSTREAM_CORS_ALLOWED_ORIGINS ]

/-- Package initialisation: every initialiser is run once, in order. -/
def packageInit (p : Process) : Process :=
  initialisers.foldl (fun q step => step q) p

/-- Process state right after package initialisation in environment `e`. -/
def initialised (e : Env) : Process :=
  packageInit (Process.start e)

/-! ## Consumers of the configuration -/

/-- The four configuration fields, under the names the spec gives them. -/
inductive Field where
  | idle_conns_max
  | conn_max_lifetime
  | db_uri
  | cors_allowed_origins
  deriving DecidableEq, Repr

/-- Value obtained by reading a configuration field. -/
inductive Value where
  | int (n : Int)
  | duration (d : Duration)
  | string (s : String)
  deriving DecidableEq, Repr

/-- Read of one package variable. -/
def Settings.read (s : Settings) : Field → Value
  | .idle_conns_max => .int s.MOONSTREAM_DB_MAX_IDLE_CONNS
  | .conn_max_lifetime => .duration s.MOONSTREAM_DB_CONN_MAX_LIFETIME
  | .db_uri => .string s.MOONSTREAM_DB_URI
  | .cors_allowed_origins => .string s.MOONSTREAM_CORS_ALLOWED_ORIGINS

/-- Kind of a package-level declaration in Go. -/
inductive DeclKind where
  | varDecl
  | constDecl
  deriving DecidableEq, Repr

/-- Declaration kind of each field in the source file: the four declarations
(lines 9, 10, 11 and 14 of `settings.go`) all start with `var`, none is a `const`. -/
def declKind : Field → DeclKind
  | .idle_conns_max => .varDecl
  | .conn_max_lifetime => .varDecl
  | .db_uri => .varDecl
  | .cors_allowed_origins => .varDecl

/-- Whether an integer lies in the signed 64-bit range. -/
def inInt64 (x : Int) : Bool :=
  decide (minInt64 ≤ x) && decide (x ≤ maxInt64)

/-- Store of a value into one package variable, as the Go assignment
`settings.X = v` does. The store is refused (`none`) when the value has not the
type of the variable or is no 64-bit value: such an assignment is no Go program. -/
def Settings.assign (s : Settings) : Field → Value → Option Settings
  | .idle_conns_max, .int n =>
    if inInt64 n then some { s with MOONSTREAM_DB_MAX_IDLE_CONNS := n } else none
  | .conn_max_lifetime, .duration d =>
    if inInt64 d then some { s with MOONSTREAM_DB_CONN_MAX_LIFETIME := d } else none
  | .db_uri, .string v => some { s with MOONSTREAM_DB_URI := v }
  | .cors_allowed_origins, .string v => some { s with MOONSTREAM_CORS_ALLOWED_ORIGINS := v }
  | _, _ => none

/-- Action of code that imports the package on one package variable: a read, or an
assignment. The names are exported (upper case), so both are open to any importer. -/
inductive Action where
  | read (f : Field)
  | assign (f : Field) (v : Value)
  deriving DecidableEq, Repr

/-- One action on the process state. A read returns the field and the value it
holds and leaves the state alone. An assignment stores the value when the field is
declared with `var`; Go refuses an assignment to a `const`, which is modelled as
no change. The environment is not touched by either. -/
def Process.act (p : Process) : Action → Process × Option (Field × Value)
  | .read f => (p, some (f, p.settings.read f))
  | .assign f v =>
    match declKind f, p.settings.assign f v with
    | .varDecl, some s => ({ p with settings := s }, none)
    | _, _ => (p, none)

/-- Run of actions, in order: the final state and the log of the reads. -/
def Process.run (p : Process) : List Action → Process × List (Field × Value)
  | [] => (p, [])
  | a :: rest =>
    let r := p.act a
    let tail := r.1.run rest
    (tail.1, match r.2 with
      | some x => x :: tail.2
      | none => tail.2)

/-- Whether an action is an assignment to the given field. -/
def Action.assigns (f : Field) : Action → Bool
  | .read _ => false
  | .assign g _ => decide (g = f)

/-- Value each field is resolved to at initialisation in environment `e`, in the
words of the spec: 30, thirty minutes, and for the two environment-derived fields
the value of the variable, or the empty string when it is unset. -/
def resolvedAtInit (e : Env) : Field → Value
  | .idle_conns_max => .int 30
  | .conn_max_lifetime => .duration 1800000000000
  | .db_uri => .string ((e.lookup "MOONSTREAM_DB_URI").getD "")
  | .cors_allowed_origins => .string ((e.lookup "MOONSTREAM_CORS_ALLOWED_ORIGINS").getD "")

/-! ## Sample environments -/

/-- Environment with no variable set. -/
def envEmpty : Env := ⟨[]⟩

/-- Environment where only the database URI is set, to the value the spec uses. -/
def envPostgres : Env := ⟨[("MOONSTREAM_DB_URI", "postgres://x")]⟩

/-- Environment whose database URI carries surrounding blanks and is no URI. -/
def envPadded : Env :=
  ⟨[("PATH", "/usr/bin"), ("MOONSTREAM_DB_URI", "  not a uri  "), ("MOONSTREAM_DB_URI", "late")]⟩

/-- Environment where only the CORS origins are set, to a comma-separated list. -/
def envCors : Env := ⟨[("MOONSTREAM_CORS_ALLOWED_ORIGINS", "https://a.com,https://b.com")]⟩

/-- Environment with both variables set, and with variables named like the two
hardcoded settings. -/
def envFull : Env :=
  ⟨[("MOONSTREAM_DB_MAX_IDLE_CONNS", "99"), ("MOONSTREAM_DB_CONN_MAX_LIFETIME", "1h"),
    ("MOONSTREAM_DB_URI", "postgres://x"), ("MOONSTREAM_CORS_ALLOWED_ORIGINS", " * ")]⟩

/-- Run of an importer that reads the database URI before and after it assigns the
CORS origins, and then reads the idle-connection limit. -/
def traceReadsUri : List Action :=
  [.read .db_uri, .assign .cors_allowed_origins (.string "*"), .read .db_uri,
   .read .idle_conns_max]

/-- Run of an importer that assigns the database URI and then reads it. -/
def traceAssignsUri : List Action :=
  [.assign .db_uri (.string "changed"), .read .db_uri]

/-! ## Auxiliary facts -/

/-- For a non-empty key `os.Getenv` is the bound value, or the empty string when
the key is unbound. -/
theorem os_Getenv_eq_getD (e : Env) (key : String) (hk : key.length ≠ 0) :
    os_Getenv e key = (e.lookup key).getD "" := by
  unfold os_Getenv syscall_Getenv
  rw [if_neg hk]
  cases e.lookup key <;> rfl

/-- Package initialisation unfolded: the state after the four initialisers. -/
theorem initialised_eq (e : Env) :
    initialised e =
      { env := e
        settings :=
          { MOONSTREAM_DB_MAX_IDLE_CONNS := 30
            MOONSTREAM_DB_CONN_MAX_LIFETIME := Duration.mul 30 time_Minute
            MOONSTREAM_DB_URI := os_Getenv e "MOONSTREAM_DB_URI"
            MOONSTREAM_CORS_ALLOWED_ORIGINS := os_Getenv e "MOONSTREAM_CORS_ALLOWED_ORIGINS" } } :=
  rfl

/-- The database URI after initialisation is the binding of its variable, or empty. -/
theorem db_uri_eq_getD (e : Env) :
    (initialised e).settings.MOONSTREAM_DB_URI = (e.lookup "MOONSTREAM_DB_URI").getD "" := by
  rw [initialised_eq]
  exact os_Getenv_eq_getD e _ (by decide)

/-- The CORS origins after initialisation are the binding of their variable, or empty. -/
theorem cors_eq_getD (e : Env) :
    (initialised e).settings.MOONSTREAM_CORS_ALLOWED_ORIGINS =
      (e.lookup "MOONSTREAM_CORS_ALLOWED_ORIGINS").getD "" := by
  rw [initialised_eq]
  exact os_Getenv_eq_getD e _ (by decide)

/-- The literal constants of the 64-bit model are the powers of two they stand for. -/
theorem int64_bounds_eq : minInt64 = -(2 ^ 63) ∧ maxInt64 = 2 ^ 63 - 1 := by
  constructor <;> norm_num [minInt64, maxInt64]

/-- The wrap-around of the model is reduction modulo `2^64` into the signed range. -/
theorem wrapInt64_eq (x : Int) : wrapInt64 x = (x + 2 ^ 63) % 2 ^ 64 - 2 ^ 63 := by
  unfold wrapInt64
  norm_num

/-- A value in the signed 64-bit range is left alone by the wrap-around. -/
theorem wrapInt64_of_inRange (x : Int) (hlo : minInt64 ≤ x) (hhi : x ≤ maxInt64) :
    wrapInt64 x = x := by
  unfold wrapInt64
  unfold minInt64 at hlo
  unfold maxInt64 at hhi
  rw [Int.emod_eq_of_lt (by omega) (by omega)]
  omega

/-- Every initialiser of the package leaves the process environment as it was. -/
theorem initialisers_preserve_env (step : Process → Process) (hs : step ∈ initialisers)
    (p : Process) : (step p).env = p.env := by
  simp only [initialisers, List.mem_cons, List.mem_singleton, List.not_mem_nil, or_false] at hs
  rcases hs with h | h | h | h <;> subst h <;> rfl

/-- A run of steps that each preserve the environment preserves the environment. -/
theorem foldl_preserves_env (steps : List (Process → Process))
    (hsteps : ∀ step ∈ steps, ∀ p : Process, (step p).env = p.env) (p : Process) :
    (steps.foldl (fun q step => step q) p).env = p.env := by
  induction steps generalizing p with
  | nil => rfl
  | cons s rest ih =>
    rw [List.foldl_cons, ih (fun step hm => hsteps step (List.mem_cons_of_mem _ hm))]
    exact hsteps s (List.mem_cons_self _ _) p

/-- Reading a field after initialisation gives the value the spec resolves it to. -/
theorem initialised_read (e : Env) (f : Field) :
    (initialised e).settings.read f = resolvedAtInit e f := by
  have hval : Duration.mul 30 time_Minute = 1800000000000 := by decide
  cases f
  · rfl
  · show Value.duration (Duration.mul 30 time_Minute) = Value.duration 1800000000000
    rw [hval]
  · show Value.string (initialised e).settings.MOONSTREAM_DB_URI = _
    rw [db_uri_eq_getD]
    rfl
  · show Value.string (initialised e).settings.MOONSTREAM_CORS_ALLOWED_ORIGINS = _
    rw [cors_eq_getD]
    rfl

/-- An accepted assignment to one field leaves every other field as it was. -/
theorem assign_read_of_ne (s t : Settings) (g f : Field) (v : Value)
    (hst : s.assign g v = some t) (hne : g ≠ f) : t.read f = s.read f := by
  cases g <;> cases v <;> cases f <;>
    simp only [Settings.assign, ne_eq, not_true_eq_false, reduceCtorEq] at hst hne <;>
    first
      | (split at hst <;> simp only [Option.some.injEq, reduceCtorEq] at hst <;>
          subst hst <;> rfl)
      | (simp only [Option.some.injEq] at hst; subst hst; rfl)

/-- An action that does not assign a field leaves the field as it was, and when it
reads the field it returns the value the field holds. -/
theorem act_of_not_assigns (p : Process) (a : Action) (f : Field)
    (ha : a.assigns f = false) :
    (p.act a).1.settings.read f = p.settings.read f ∧
    (∀ x : Field × Value, (p.act a).2 = some x → x.1 = f → x.2 = p.settings.read f) := by
  cases a with
  | read g =>
    refine ⟨rfl, fun x hx hf => ?_⟩
    simp only [Process.act, Option.some.injEq] at hx
    subst hx
    simp only at hf
    subst hf
    rfl
  | assign g v =>
    have hne : g ≠ f := by simpa [Action.assigns] using ha
    refine ⟨?_, fun x hx => ?_⟩
    · simp only [Process.act]
      split
      · next s hk hs => exact assign_read_of_ne _ _ _ _ _ hs hne
      · rfl
    · simp only [Process.act] at hx
      split at hx <;> simp only [reduceCtorEq] at hx

/-- Along a run with no assignment to a field, the field keeps its value and every
read of it that the run logs returns that value. -/
theorem run_of_not_assigns (f : Field) (tr : List Action) :
    ∀ p : Process, (∀ a ∈ tr, a.assigns f = false) →
      (p.run tr).1.settings.read f = p.settings.read f ∧
      (∀ x ∈ (p.run tr).2, x.1 = f → x.2 = p.settings.read f) := by
  induction tr with
  | nil =>
    intro p _
    exact ⟨rfl, fun x hx => by simp [Process.run] at hx⟩
  | cons a rest ih =>
    intro p htr
    have hact := act_of_not_assigns p a f (htr a (List.mem_cons_self _ _))
    have hrest := ih (p.act a).1 (fun b hb => htr b (List.mem_cons_of_mem _ hb))
    refine ⟨?_, fun x hx hf => ?_⟩
    · show ((p.act a).1.run rest).1.settings.read f = _
      rw [hrest.1, hact.1]
    · simp only [Process.run] at hx
      cases hlog : (p.act a).2 with
      | none =>
        rw [hlog] at hx
        rw [hrest.2 x hx hf, hact.1]
      | some y =>
        rw [hlog] at hx
        rcases List.mem_cons.mp hx with hxy | hxr
        · subst hxy
          exact hact.2 x hlog hf
        · rw [hrest.2 x hxr hf, hact.1]

/-- No action changes the process environment. -/
theorem act_preserves_env (p : Process) (a : Action) : (p.act a).1.env = p.env := by
  cases a with
  | read g => rfl
  | assign g v =>
    simp only [Process.act]
    split <;> rfl

/-- No run of actions changes the process environment. -/
theorem run_preserves_env (tr : List Action) :
    ∀ p : Process, (p.run tr).1.env = p.env := by
  induction tr with
  | nil => intro p; rfl
  | cons a rest ih =>
    intro p
    show ((p.act a).1.run rest).1.env = _
    rw [ih, act_preserves_env]

/-! ## The claims -/

/-- C1: after package initialisation `MOONSTREAM_DB_URI` is exactly the value bound
to the environment variable `MOONSTREAM_DB_URI` when that variable is set (whatever
the value, unchanged), and the empty string when the variable is unset. -/
theorem db_uri_resolves_from_env (e : Env) :
    (∀ v : String, e.lookup "MOONSTREAM_DB_URI" = some v →
        (initialised e).settings.MOONSTREAM_DB_URI = v) ∧
    (e.lookup "MOONSTREAM_DB_URI" = none →
        (initialised e).settings.MOONSTREAM_DB_URI = "") := by
  refine ⟨fun v hv => ?_, fun hnone => ?_⟩
  · rw [db_uri_eq_getD, hv]
    rfl
  · rw [db_uri_eq_getD, hnone]
    rfl

/-- Witness of C1: the value `postgres://x` of the spec, a padded value that is no
URI, and the empty environment. -/
theorem db_uri_resolves_from_env_witness :
    (envPostgres.lookup "MOONSTREAM_DB_URI" = some "postgres://x" ∧
      (initialised envPostgres).settings.MOONSTREAM_DB_URI = "postgres://x") ∧
    (envPadded.lookup "MOONSTREAM_DB_URI" = some "  not a uri  " ∧
      (initialised envPadded).settings.MOONSTREAM_DB_URI = "  not a uri  ") ∧
    (envEmpty.lookup "MOONSTREAM_DB_URI" = none ∧
      (initialised envEmpty).settings.MOONSTREAM_DB_URI = "") :=
  ⟨⟨by decide, (db_uri_resolves_from_env envPostgres).1 "postgres://x" (by decide)⟩,
   ⟨by decide, (db_uri_resolves_from_env envPadded).1 "  not a uri  " (by decide)⟩,
   ⟨by decide, (db_uri_resolves_from_env envEmpty).2 (by decide)⟩⟩

/-- C2: after package initialisation `MOONSTREAM_CORS_ALLOWED_ORIGINS` is exactly the
value bound to the environment variable of that name when it is set (commas and
blanks included, nothing split or trimmed), and the empty string when it is unset. -/
theorem cors_allowed_origins_resolves_from_env (e : Env) :
    (∀ v : String, e.lookup "MOONSTREAM_CORS_ALLOWED_ORIGINS" = some v →
        (initialised e).settings.MOONSTREAM_CORS_ALLOWED_ORIGINS = v) ∧
    (e.lookup "MOONSTREAM_CORS_ALLOWED_ORIGINS" = none →
        (initialised e).settings.MOONSTREAM_CORS_ALLOWED_ORIGINS = "") := by
  refine ⟨fun v hv => ?_, fun hnone => ?_⟩
  · rw [cors_eq_getD, hv]
    rfl
  · rw [cors_eq_getD, hnone]
    rfl

/-- Witness of C2: the comma-separated value of the spec, a blank-padded value, and
an environment where the variable is unset. -/
theorem cors_allowed_origins_resolves_from_env_witness :
    (envCors.lookup "MOONSTREAM_CORS_ALLOWED_ORIGINS" = some "https://a.com,https://b.com" ∧
      (initialised envCors).settings.MOONSTREAM_CORS_ALLOWED_ORIGINS =
        "https://a.com,https://b.com") ∧
    (envFull.lookup "MOONSTREAM_CORS_ALLOWED_ORIGINS" = some " * " ∧
      (initialised envFull).settings.MOONSTREAM_CORS_ALLOWED_ORIGINS = " * ") ∧
    (envPostgres.lookup "MOONSTREAM_CORS_ALLOWED_ORIGINS" = none ∧
      (initialised envPostgres).settings.MOONSTREAM_CORS_ALLOWED_ORIGINS = "") :=
  ⟨⟨by decide,
    (cors_allowed_origins_resolves_from_env envCors).1 "https://a.com,https://b.com"
      (by decide)⟩,
   ⟨by decide, (cors_allowed_origins_resolves_from_env envFull).1 " * " (by decide)⟩,
   ⟨by decide, (cors_allowed_origins_resolves_from_env envPostgres).2 (by decide)⟩⟩

/-- C3: in every process environment, also one that defines a variable named
`MOONSTREAM_DB_MAX_IDLE_CONNS`, the variable `MOONSTREAM_DB_MAX_IDLE_CONNS` is 30
after package initialisation. -/
theorem idle_conns_max_is_thirty (e : Env) :
    (initialised e).settings.MOONSTREAM_DB_MAX_IDLE_CONNS = 30 ∧
    (∀ v : String, ∀ rest : List (String × String),
      (initialised ⟨("MOONSTREAM_DB_MAX_IDLE_CONNS", v) :: rest⟩).settings.MOONSTREAM_DB_MAX_IDLE_CONNS
        = 30) :=
  ⟨rfl, fun _ _ => rfl⟩

/-- C4: in every process environment, also one that defines a variable named
`MOONSTREAM_DB_CONN_MAX_LIFETIME`, the variable `MOONSTREAM_DB_CONN_MAX_LIFETIME` is
30 minutes after package initialisation: 30 * 60 * 10^9 = 1800000000000 nanoseconds,
and the 64-bit product that computes it is the exact product, inside the signed
64-bit range. -/
theorem conn_max_lifetime_is_thirty_minutes (e : Env) :
    (initialised e).settings.MOONSTREAM_DB_CONN_MAX_LIFETIME = 1800000000000 ∧
    (initialised e).settings.MOONSTREAM_DB_CONN_MAX_LIFETIME = 30 * 60 * 10 ^ 9 ∧
    (∀ v : String, ∀ rest : List (String × String),
      (initialised
        ⟨("MOONSTREAM_DB_CONN_MAX_LIFETIME", v) :: rest⟩).settings.MOONSTREAM_DB_CONN_MAX_LIFETIME
        = 1800000000000) ∧
    time_Minute = 60 * 10 ^ 9 ∧
    Duration.mul 30 time_Minute = 30 * time_Minute ∧
    minInt64 ≤ 30 * time_Minute ∧ 30 * time_Minute ≤ maxInt64 := by
  have hval : Duration.mul 30 time_Minute = 1800000000000 := by decide
  have hmin : time_Minute = 60000000000 := by decide
  refine ⟨?_, ?_, fun _ _ => ?_, ?_, ?_, ?_, ?_⟩
  · rw [initialised_eq]; exact hval
  · rw [initialised_eq]; simp only [hval]; norm_num
  · rw [initialised_eq]; exact hval
  · rw [hmin]; norm_num
  · rw [hval, hmin]; norm_num
  · rw [hmin]; unfold minInt64; norm_num
  · rw [hmin]; unfold maxInt64; norm_num

/-- C5: the configuration provider cannot fail. In every process environment package
initialisation yields a state with a value for each of the four fields (the two
hardcoded ones, and for each environment-derived one the bound value or the empty
string); a missing variable gives an empty-string field, not a failure. -/
theorem initialisation_is_total (e : Env) :
    (∃ s : Settings, (initialised e).settings = s ∧
      s = { MOONSTREAM_DB_MAX_IDLE_CONNS := 30
            MOONSTREAM_DB_CONN_MAX_LIFETIME := 1800000000000
            MOONSTREAM_DB_URI := (e.lookup "MOONSTREAM_DB_URI").getD ""
            MOONSTREAM_CORS_ALLOWED_ORIGINS :=
              (e.lookup "MOONSTREAM_CORS_ALLOWED_ORIGINS").getD "" }) ∧
    (e.lookup "MOONSTREAM_DB_URI" = none →
      (initialised e).settings.MOONSTREAM_DB_URI = "") ∧
    (e.lookup "MOONSTREAM_CORS_ALLOWED_ORIGINS" = none →
      (initialised e).settings.MOONSTREAM_CORS_ALLOWED_ORIGINS = "") := by
  have hval : Duration.mul 30 time_Minute = 1800000000000 := by decide
  refine ⟨⟨_, rfl, ?_⟩, fun hnone => ?_, fun hnone => ?_⟩
  · rw [← db_uri_eq_getD e, ← cors_eq_getD e, initialised_eq, hval]
  · rw [db_uri_eq_getD, hnone]
    rfl
  · rw [cors_eq_getD, hnone]
    rfl

/-- Witness of C5: with nothing set both string fields are empty, and with one of
the two variables set the other field is still the empty string. -/
theorem initialisation_is_total_witness :
    (envEmpty.lookup "MOONSTREAM_DB_URI" = none ∧
      (initialised envEmpty).settings.MOONSTREAM_DB_URI = "") ∧
    (envPostgres.lookup "MOONSTREAM_CORS_ALLOWED_ORIGINS" = none ∧
      (initialised envPostgres).settings.MOONSTREAM_CORS_ALLOWED_ORIGINS = "") ∧
    (initialised envEmpty).settings =
      { MOONSTREAM_DB_MAX_IDLE_CONNS := 30
        MOONSTREAM_DB_CONN_MAX_LIFETIME := 1800000000000
        MOONSTREAM_DB_URI := ""
        MOONSTREAM_CORS_ALLOWED_ORIGINS := "" } :=
  ⟨⟨by decide, (initialisation_is_total envEmpty).2.1 (by decide)⟩,
   ⟨by decide, (initialisation_is_total envPostgres).2.2 (by decide)⟩,
   by decide⟩

/-- C6, as amended: the four fields are assignable package variables, written by the
package itself only in their initialisers. Along every run after initialisation
that holds no assignment to a field, the field keeps the value resolved at
initialisation (30, thirty minutes, the bound value or the empty string), every
read of it logged by the run returns that value, and so does a read after the run. -/
theorem fields_stable_without_assignment (e : Env) (tr : List Action) (f : Field)
    (htr : ∀ a ∈ tr, a.assigns f = false) :
    ((initialised e).run tr).1.settings.read f = resolvedAtInit e f ∧
    (∀ x ∈ ((initialised e).run tr).2, x.1 = f → x.2 = resolvedAtInit e f) ∧
    (((initialised e).run tr).1.act (.read f)).2 = some (f, resolvedAtInit e f) ∧
    ((initialised e).run tr).1.env = e := by
  have hrun := run_of_not_assigns f tr (initialised e) htr
  rw [initialised_read] at hrun
  refine ⟨hrun.1, hrun.2, ?_, ?_⟩
  · show some (f, ((initialised e).run tr).1.settings.read f) = _
    rw [hrun.1]
  · exact run_preserves_env tr (initialised e)

/-- Witness of C6 as amended: a run that reads the database URI around an assignment
to the CORS origins. -/
theorem fields_stable_without_assignment_witness :
    (∀ a ∈ traceReadsUri, a.assigns .db_uri = false) ∧
    ((initialised envPostgres).run traceReadsUri).1.settings.read .db_uri =
      resolvedAtInit envPostgres .db_uri ∧
    (∀ x ∈ ((initialised envPostgres).run traceReadsUri).2,
      x.1 = .db_uri → x.2 = resolvedAtInit envPostgres .db_uri) ∧
    (((initialised envPostgres).run traceReadsUri).1.act (.read .db_uri)).2 =
      some (.db_uri, resolvedAtInit envPostgres .db_uri) ∧
    ((initialised envPostgres).run traceReadsUri).1.env = envPostgres :=
  ⟨by decide,
   fields_stable_without_assignment envPostgres traceReadsUri .db_uri (by decide)⟩

/-- Counterexample to C6 as stated: the fields are not immutable. In the environment
that binds the database URI to `postgres://x`, an assignment to the field followed
by a read returns the assigned value, not the value resolved at initialisation. -/
theorem fields_assignable_counterexample :
    (initialised envPostgres).settings.read .db_uri = .string "postgres://x" ∧
    ((initialised envPostgres).run traceAssignsUri).2 = [(.db_uri, .string "changed")] ∧
    ((initialised envPostgres).run traceAssignsUri).1.settings.read .db_uri =
      .string "changed" ∧
    ¬ (∀ (e : Env) (tr : List Action) (f : Field),
        ((initialised e).run tr).1.settings.read f = (initialised e).settings.read f) := by
  refine ⟨by decide, by decide, by decide, fun hall => ?_⟩
  have hbad := hall envPostgres traceAssignsUri .db_uri
  revert hbad
  decide

/-- C7: initialisation only reads the process environment. After every initialiser,
and so after all four, the environment is the one the process started with. -/
theorem initialisation_preserves_env (e : Env) :
    (initialised e).env = e ∧
    (∀ n : Nat,
      ((initialisers.take n).foldl (fun q step => step q) (Process.start e)).env = e) ∧
    (∀ key : String, (initialised e).env.lookup key = e.lookup key) := by
  refine ⟨rfl, fun n => ?_, fun _ => rfl⟩
  exact foldl_preserves_env _
    (fun step hm p => initialisers_preserve_env step (List.mem_of_mem_take hm) p)
    (Process.start e)

/-- C8: each environment-derived field depends on one environment variable only. Two
environments that agree on `MOONSTREAM_DB_URI` (set or not, and its value) resolve
the same database URI, whatever else they contain, and two environments that agree
on `MOONSTREAM_CORS_ALLOWED_ORIGINS` resolve the same CORS origins. -/
theorem fields_depend_on_own_variable (e₁ e₂ : Env) :
    (e₁.lookup "MOONSTREAM_DB_URI" = e₂.lookup "MOONSTREAM_DB_URI" →
      (initialised e₁).settings.MOONSTREAM_DB_URI =
        (initialised e₂).settings.MOONSTREAM_DB_URI) ∧
    (e₁.lookup "MOONSTREAM_CORS_ALLOWED_ORIGINS" = e₂.lookup "MOONSTREAM_CORS_ALLOWED_ORIGINS" →
      (initialised e₁).settings.MOONSTREAM_CORS_ALLOWED_ORIGINS =
        (initialised e₂).settings.MOONSTREAM_CORS_ALLOWED_ORIGINS) := by
  refine ⟨fun h => ?_, fun h => ?_⟩
  · rw [db_uri_eq_getD, db_uri_eq_getD, h]
  · rw [cors_eq_getD, cors_eq_getD, h]

/-- Witness of C8: two environments with the same database URI and different CORS
origins, and two with the same CORS origins (unset) and different database URIs. -/
theorem fields_depend_on_own_variable_witness :
    (envPostgres.lookup "MOONSTREAM_DB_URI" = envFull.lookup "MOONSTREAM_DB_URI" ∧
      envPostgres.lookup "MOONSTREAM_CORS_ALLOWED_ORIGINS" ≠
        envFull.lookup "MOONSTREAM_CORS_ALLOWED_ORIGINS" ∧
      (initialised envPostgres).settings.MOONSTREAM_DB_URI =
        (initialised envFull).settings.MOONSTREAM_DB_URI) ∧
    (envPostgres.lookup "MOONSTREAM_CORS_ALLOWED_ORIGINS" =
        envPadded.lookup "MOONSTREAM_CORS_ALLOWED_ORIGINS" ∧
      envPostgres.lookup "MOONSTREAM_DB_URI" ≠ envPadded.lookup "MOONSTREAM_DB_URI" ∧
      (initialised envPostgres).settings.MOONSTREAM_CORS_ALLOWED_ORIGINS =
        (initialised envPadded).settings.MOONSTREAM_CORS_ALLOWED_ORIGINS) :=
  ⟨⟨by decide, by decide,
    (fields_depend_on_own_variable envPostgres envFull).1 (by decide)⟩,
   ⟨by decide, by decide,
    (fields_depend_on_own_variable envPostgres envPadded).2 (by decide)⟩⟩

end Moonstream
